import Mathlib

/-!
Verification of the batch PDF-compression orchestration core of this
repository (src/compress.py) against its natural-language specification.

The embedding models the filesystem shallowly: a path is its list of
components, and a filesystem state `FS` records the set of existing
directories and the existing files together with their byte sizes.
External effects (the Ghostscript subprocess, a failing copy) are passed
in as explicit parameters.  Python functions that can raise are embedded
as functions into `OpResult`, which carries the filesystem state both on
normal return and when an exception propagates.  The unbounded
`while backup_path.exists()` probing loop of `create_backup` is embedded
with an explicit fuel parameter; `none` models non-termination of the
loop (impossible on a real, finite filesystem).
-/

namespace CompressPdf

/-- A filesystem path, as its list of components. -/
abbrev FsPath := List String

/-- Shallow filesystem state: the directories that exist, and the files
that exist together with their byte sizes. -/
structure FS where
  dirs : List FsPath
  files : List (FsPath × Nat)
deriving DecidableEq

/-- Result of a Python call that mutates the filesystem: `ok` carries the
returned value and the new state, `error` carries the message of the
propagating exception and the state at the point it was raised. -/
inductive OpResult (α : Type) where
  | ok : α → FS → OpResult α
  | error : String → FS → OpResult α
deriving DecidableEq

/-- `Path.stat().st_size` on the modelled filesystem: the byte size of an
existing file, `none` if the file does not exist. -/
def statOf (fs : FS) (p : FsPath) : Option Nat :=
  (fs.files.find? (fun e => decide (e.1 = p))).map (fun e => e.2)

/-- `Path.exists()` on the modelled filesystem (for files). -/
def fileExists (fs : FS) (p : FsPath) : Bool :=
  (statOf fs p).isSome

/-- `mkdir(exist_ok=True)`: idempotently ensure a directory exists. -/
def mkdirFS (fs : FS) (d : FsPath) : FS :=
  { fs with dirs := d :: fs.dirs }

/-- Create or overwrite a file with the given byte size. -/
def writeFile (fs : FS) (p : FsPath) (c : Nat) : FS :=
  { fs with files := (p, c) :: fs.files.filter (fun e => decide (¬ e.1 = p)) }

/-- Remove a file. -/
def eraseFile (fs : FS) (p : FsPath) : FS :=
  { fs with files := fs.files.filter (fun e => decide (¬ e.1 = p)) }

/-- `shutil.move(src, dst)`: the content of `src` ends up at `dst` and
`src` is gone.  (Only invoked in the source after `src` was checked or
just created; a missing source is modelled as a no-op here.) -/
def moveFile (fs : FS) (src dst : FsPath) : FS :=
  match statOf fs src with
  | some c => writeFile (eraseFile fs src) dst c
  | none => fs

/-- `get_file_size` (src/compress.py lines 82-88).  Returns the file size
in megabytes; the Python function catches every exception from `stat()`
and returns `0`, so it is total and never raises.  The ambient `stat`
parameter models `Path(file_path).stat().st_size`, with `none` standing
for any stat failure (missing file, permission error, ...). -/
def get_file_size (stat : FsPath → Option Nat) (p : FsPath) : ℚ :=
  match stat p with
  | some n => (n : ℚ) / (1024 * 1024)
  | none => 0

/-- Whether a discovered path's final component matches the glob pattern
`*.pdf` (its name ends with `.pdf`, checked on the character list). -/
def isPdfName (f : FsPath) : Bool :=
  match f.getLast? with
  | some s => ".pdf".data.isSuffixOf s.data
  | none => false

/-- `find_all_pdfs` (src/compress.py lines 219-229).  `rglob("*.pdf")`
returns every file below `dir` (at any depth) whose name ends in `.pdf`;
`glob("*.pdf")` returns only the direct children.  pathlib's selector
checks `is_dir` on the root first and yields nothing at all when the root
is not an existing directory, so the function returns an empty list in
that case rather than raising. -/
def find_all_pdfs (fs : FS) (dir : FsPath) (recursive : Bool) : List FsPath :=
  if dir ∈ fs.dirs then
    if recursive then
      (fs.files.map (fun e => e.1)).filter
        (fun f => dir.isPrefixOf f && decide (dir.length < f.length) && isPdfName f)
    else
      (fs.files.map (fun e => e.1)).filter
        (fun f => dir.isPrefixOf f && decide (f.length = dir.length + 1) && isPdfName f)
  else []

/-- The inline size-filter loop of `compress_all_pdfs_in_directory_threaded`
(src/compress.py lines 332-347): partition the discovered files into
`files_to_process` and `skipped_files` (with their sizes) by comparing
`get_file_size` against `min_file_size_mb`.  Because `get_file_size`
catches every exception itself and returns `0`, the `except` branch at
lines 345-347 (placing a file whose size could not be read into
`files_to_process`) is unreachable: a stat failure surfaces as size `0`. -/
def size_filter (stat : FsPath → Option Nat) (min_file_size_mb : ℚ) :
    List FsPath → List FsPath × List (FsPath × ℚ)
  | [] => ([], [])
  | f :: rest =>
    let s := get_file_size stat f
    let r := size_filter stat min_file_size_mb rest
    if min_file_size_mb ≤ s then (f :: r.1, r.2) else (r.1, (f, s) :: r.2)

/-- The candidate backup names probed by `create_backup`
(src/compress.py lines 98-106): first `backup_dir / source.name`
(with `name = stem ++ ext`), then `stem_backup_1.ext`, `stem_backup_2.ext`,
and so on. -/
def backup_candidate (backupDir : FsPath) (stem ext : String) : Nat → FsPath
  | 0 => backupDir ++ [stem ++ ext]
  | Nat.succ k => backupDir ++ [stem ++ "_backup_" ++ Nat.repr (k + 1) ++ ext]

/-- The `while backup_path.exists()` probing loop of `create_backup`:
starting from candidate index `k`, return the first index whose candidate
path does not exist.  `fuel` bounds the number of probes; `none` models
non-termination of the loop. -/
def findFreeFrom (fs : FS) (backupDir : FsPath) (stem ext : String) :
    Nat → Nat → Option Nat
  | 0, _ => none
  | Nat.succ fuel, k =>
    if fileExists fs (backup_candidate backupDir stem ext k) then
      findFreeFrom fs backupDir stem ext fuel (k + 1)
    else
      some k

/-- `create_backup` (src/compress.py lines 91-114): ensure the backup
directory exists, probe for a free backup name, then `shutil.copy2` the
source file there.  `copyOk = false` models an environmental failure of
the copy (disk full, permissions); a missing source also fails the copy.
Every exception is logged and re-raised, which `OpResult.error` models;
a failed copy never modifies the source file, so the error state keeps
the files unchanged. -/
def create_backup (copyOk : Bool) (fs : FS) (src backupDir : FsPath)
    (stem ext : String) (fuel : Nat) : Option (OpResult FsPath) :=
  let fs0 := mkdirFS fs backupDir
  match findFreeFrom fs0 backupDir stem ext fuel 0 with
  | none => none
  | some k =>
    let bp := backup_candidate backupDir stem ext k
    match copyOk, statOf fs0 src with
    | true, some c => some (.ok bp (writeFile fs0 bp c))
    | true, none => some (.error "Failed to create backup: source not readable" fs0)
    | false, _ => some (.error "Failed to create backup: copy failed" fs0)

/-- `replace_original_file` (src/compress.py lines 191-216): check that
the compressed file exists, create a backup of the original, then move
the compressed file onto the original.  Any exception is wrapped into a
`RuntimeError` ("Failed to replace original file ...") and re-raised. -/
def replace_original_file (copyOk : Bool) (fs : FS)
    (original compressed backupDir : FsPath) (stem ext : String)
    (fuel : Nat) : Option (OpResult FsPath) :=
  if fileExists fs compressed then
    match create_backup copyOk fs original backupDir stem ext fuel with
    | none => none
    | some (.error e fs1) =>
      some (.error ("Failed to replace original file: " ++ e) fs1)
    | some (.ok bp fs1) =>
      some (.ok bp (moveFile fs1 compressed original))
  else
    some (.error "Failed to replace original file: compressed file not found" fs)

/-- The per-file result dictionary returned by `compress_pdf` on success
(src/compress.py lines 166-171); `success` is always `true` there. -/
structure CompressResult where
  success : Bool
  original_size : ℚ
  compressed_size : ℚ
  compression_ratio : ℚ
deriving DecidableEq

/-- `compress_pdf` (src/compress.py lines 117-188).  The Ghostscript
subprocess is modelled by its exit code `gsExit` and by `gsOut`, the byte
size of the output file it writes (`none` when it produces no output).
`subprocess.run(..., check=True)` raises on a non-zero exit code, which
the function turns into a `RuntimeError`; afterwards the function
explicitly checks that the output file exists and raises
"Output file was not created" when it does not.  (The resolution of the
Ghostscript executable path is assumed to succeed; its failure raises
before the tool ever runs and never reports success.) -/
def compress_pdf (fs : FS) (gsExit : Nat) (gsOut : Option Nat)
    (input output : FsPath) : OpResult CompressResult :=
  let original_size := get_file_size (statOf fs) input
  let fs1 := match gsOut with
    | some n => writeFile fs output n
    | none => fs
  if gsExit ≠ 0 then
    .error ("Ghostscript failed with return code " ++ Nat.repr gsExit) fs1
  else if (statOf fs1 output).isNone then
    .error "Output file was not created" fs1
  else
    let compressed_size := get_file_size (statOf fs1) output
    .ok { success := true
          original_size := original_size
          compressed_size := compressed_size
          compression_ratio :=
            if 0 < original_size then (1 - compressed_size / original_size) * 100 else 0 }
      fs1

/-- Whether a call returned normally (`true`) or raised (`false`). -/
def OpResult.isOk {α : Type} : OpResult α → Bool
  | .ok _ _ => true
  | .error _ _ => false

/-- The filesystem state after a call, whether it returned or raised. -/
def OpResult.state {α : Type} : OpResult α → FS
  | .ok _ fs => fs
  | .error _ fs => fs

/-- A per-job outcome as returned by `compress_single_pdf_task`
(src/compress.py lines 264-280): the `status` key of the returned
dictionary together with the data recorded for that status. -/
inductive TaskOutcome where
  | success (original_size compressed_size compression_ratio : ℚ)
  | failed (error : String)
deriving DecidableEq

/-- `compress_single_pdf_task` (src/compress.py lines 240-280): compress
one file; if `replace_originals` is requested, immediately back up and
replace (or move without backup when `create_backup` is off); any
exception from the replace step is caught and the job returns
`status = failed` even though compression itself succeeded.  The Python
parameter named `create_backup` (which shadows the function of the same
name) is `make_backup` here.  The `else` branch returning
"Compression failed" at line 276 is unreachable because `compress_pdf`
only ever returns with `success = True`. -/
def compress_single_pdf_task (fs : FS) (gsExit : Nat) (gsOut : Option Nat)
    (copyOk : Bool) (pdf output backupDir : FsPath) (stem ext : String)
    (replace_originals make_backup : Bool) (fuel : Nat) :
    Option (TaskOutcome × FS) :=
  match compress_pdf fs gsExit gsOut pdf output with
  | .error e fs1 => some (.failed e, fs1)
  | .ok r fs1 =>
    if replace_originals then
      if make_backup then
        match replace_original_file copyOk fs1 pdf output backupDir stem ext fuel with
        | none => none
        | some (.error e fs2) => some (.failed e, fs2)
        | some (.ok _ fs2) =>
          some (.success r.original_size r.compressed_size r.compression_ratio, fs2)
      else
        some (.success r.original_size r.compressed_size r.compression_ratio,
          moveFile fs1 output pdf)
    else
      some (.success r.original_size r.compressed_size r.compression_ratio, fs1)

/-- Whether a per-job outcome carries `status = failed`. -/
def outcome_is_failed : TaskOutcome → Bool
  | .failed _ => true
  | .success _ _ _ => false

/-- The running batch counters of `compress_all_pdfs_in_directory_threaded`
(src/compress.py lines 383-386). -/
structure Agg where
  successful_compressions : Nat
  failed_compressions : Nat
  total_original_size : ℚ
  total_compressed_size : ℚ
deriving DecidableEq

/-- One step of the completion loop (src/compress.py lines 414-423):
a successful job increments the success count and adds its sizes to the
totals; a failed job only increments the failure count. -/
def agg_step (a : Agg) : TaskOutcome → Agg
  | .success o c _ =>
    { a with successful_compressions := a.successful_compressions + 1
             total_original_size := a.total_original_size + o
             total_compressed_size := a.total_compressed_size + c }
  | .failed _ =>
    { a with failed_compressions := a.failed_compressions + 1 }

/-- Aggregate all completed job outcomes, starting from zero counters. -/
def aggregate (outs : List TaskOutcome) : Agg :=
  outs.foldl agg_step ⟨0, 0, 0, 0⟩

/-- A value stored in the summary dictionary the orchestrator returns. -/
inductive PyVal where
  | nat (n : Nat)
  | rat (q : ℚ)
deriving DecidableEq

/-- The overall compression figure computed for the log
(src/compress.py lines 459-460): `(1 - total_compressed/total_original) * 100`
when `total_original > 0`, else `0`.  It is only logged (and only when at
least one compression succeeded); it is not part of the returned summary. -/
def overall_compression (total_original total_compressed : ℚ) : ℚ :=
  if 0 < total_original then (1 - total_compressed / total_original) * 100 else 0

/-- The summary dictionary returned by
`compress_all_pdfs_in_directory_threaded` when at least one file was
processed (src/compress.py lines 465-472), keyed exactly as in the
source. -/
def run_summary (outs : List TaskOutcome) (skippedCount : Nat)
    (processing_time : ℚ) : List (String × PyVal) :=
  let a := aggregate outs
  [("successful", .nat a.successful_compressions),
   ("failed", .nat a.failed_compressions),
   ("skipped", .nat skippedCount),
   ("total_original_size", .rat a.total_original_size),
   ("total_compressed_size", .rat a.total_compressed_size),
   ("processing_time", .rat processing_time)]

/-! ## Helper lemmas about the filesystem model -/

/-- `mkdir` changes no file: `stat` is unaffected. -/
theorem statOf_mkdirFS (fs : FS) (d p : FsPath) : statOf (mkdirFS fs d) p = statOf fs p := rfl

/-- `mkdir` changes no file: existence checks are unaffected. -/
theorem fileExists_mkdirFS (fs : FS) (d p : FsPath) :
    fileExists (mkdirFS fs d) p = fileExists fs p := rfl

/-- After writing a file, `stat` at that path sees the written size. -/
theorem statOf_writeFile_self (fs : FS) (p : FsPath) (c : Nat) :
    statOf (writeFile fs p c) p = some c := by
  simp [statOf, writeFile, List.find?]

/-- Writing a file leaves every other path unchanged. -/
theorem statOf_writeFile_ne (fs : FS) (p q : FsPath) (c : Nat) (h : q ≠ p) :
    statOf (writeFile fs p c) q = statOf fs q := by
  have hpq : p ≠ q := fun hh => h hh.symm
  have hpred : (fun a : FsPath × Nat => !decide (a.1 = p) && decide (a.1 = q))
      = (fun a : FsPath × Nat => decide (a.1 = q)) := by
    funext a
    by_cases hap : a.1 = p
    · simp [hap, hpq]
    · simp [hap]
  simp [statOf, writeFile, List.find?_cons, hpq, hpred]

/-- Characterisation of the probing loop: when it returns index `j`, the
candidate at `j` is free and every candidate probed before it existed. -/
theorem findFreeFrom_spec (fs : FS) (bdir : FsPath) (stem ext : String) :
    ∀ fuel k j, findFreeFrom fs bdir stem ext fuel k = some j →
      k ≤ j ∧ fileExists fs (backup_candidate bdir stem ext j) = false ∧
        ∀ i, k ≤ i → i < j → fileExists fs (backup_candidate bdir stem ext i) = true := by
  intro fuel
  induction fuel with
  | zero => intro k j hkj; simp [findFreeFrom] at hkj
  | succ fuel ih =>
    intro k j hkj
    rw [findFreeFrom] at hkj
    by_cases hex : fileExists fs (backup_candidate bdir stem ext k) = true
    · rw [if_pos hex] at hkj
      obtain ⟨h1, h2, h3⟩ := ih (k + 1) j hkj
      refine ⟨by omega, h2, fun i hki hij => ?_⟩
      by_cases hik : i = k
      · exact hik ▸ hex
      · exact h3 i (by omega) hij
    · rw [if_neg hex] at hkj
      cases hkj
      refine ⟨le_refl k, by simpa using hex, fun i hki hij => by omega⟩

/-- When the backup copy fails, `replace_original_file` either diverges in
the probing loop or propagates the backup failure with no file modified
(only the backup directory may have been created). -/
theorem replace_copyFail (fs : FS) (original compressed backupDir : FsPath)
    (stem ext : String) (fuel : Nat)
    (hcomp : fileExists fs compressed = true) :
    replace_original_file false fs original compressed backupDir stem ext fuel = none
    ∨ replace_original_file false fs original compressed backupDir stem ext fuel
        = some (.error "Failed to replace original file: Failed to create backup: copy failed"
            (mkdirFS fs backupDir)) := by
  simp only [replace_original_file, create_backup, hcomp, if_true]
  cases heq : findFreeFrom (mkdirFS fs backupDir) backupDir stem ext fuel 0 with
  | none => left; simp [heq]
  | some k => right; simp [heq]

/-- Membership in the `files_to_process` component of the size filter. -/
theorem mem_size_filter (stat : FsPath → Option Nat) (m : ℚ) :
    ∀ (l : List FsPath) (f : FsPath),
      f ∈ (size_filter stat m l).1 ↔ f ∈ l ∧ m ≤ get_file_size stat f := by
  intro l
  induction l with
  | nil => intro f; simp [size_filter]
  | cons g l ih =>
    intro f
    rw [size_filter]
    by_cases hg : m ≤ get_file_size stat g
    · rw [if_pos hg]
      dsimp only
      simp only [List.mem_cons, ih f]
      constructor
      · rintro (rfl | ⟨hf, hs⟩)
        · exact ⟨Or.inl rfl, hg⟩
        · exact ⟨Or.inr hf, hs⟩
      · rintro ⟨rfl | hf, hs⟩
        · exact Or.inl rfl
        · exact Or.inr ⟨hf, hs⟩
    · rw [if_neg hg]
      dsimp only
      simp only [List.mem_cons, ih f]
      constructor
      · rintro ⟨hf, hs⟩
        exact ⟨Or.inr hf, hs⟩
      · rintro ⟨rfl | hf, hs⟩
        · exact absurd hs hg
        · exact ⟨hf, hs⟩

/-! ## The claims -/

/-- Claim C1 (code bug): the spec and the orchestrator's own comment at
compress.py line 347 intend a file whose size cannot be read to be placed
into `files_to_process` (fail open), but `get_file_size` swallows the stat
failure and returns `0`, so the size filter classifies such a file as too
small and places it into `skipped_files` (with the default
`min_file_size_mb = 1.0`); the fail-open `except` branch is unreachable.
This theorem evaluates the embedded size filter at the failing input: one
file whose stat fails, threshold 1 MB. -/
theorem c1_unreadable_file_lands_in_skipped :
    size_filter (fun _ => none) 1 [["root", "unreadable.pdf"]]
      = ([], [(["root", "unreadable.pdf"], 0)]) := by decide

/-- Claim C2, counterexample: for the concrete batch with one successful
job (10 MB down to 5 MB, wall time 2), the summary dictionary returned by
the orchestrator contains the elapsed time but no entry whose value is the
aggregate compression ratio `1 - total_compressed/total_original = 1/2`:
the ratio is not included in the returned summary (it is only logged, as a
percentage). -/
theorem c2_ratio_not_in_returned_summary :
    (("processing_time", PyVal.rat 2) ∈ run_summary [TaskOutcome.success 10 5 50] 0 2)
    ∧ ∀ kv ∈ run_summary [TaskOutcome.success 10 5 50] 0 2,
        kv.2 ≠ PyVal.rat (1 - 5 / 10) := by
  constructor
  · simp [run_summary, aggregate, agg_step]
  · intro kv hkv
    simp only [run_summary, aggregate, agg_step, List.foldl, List.mem_cons,
      List.not_mem_nil, or_false] at hkv
    rcases hkv with h | h | h | h | h | h
    all_goals subst h
    all_goals first
      | exact fun hcon => PyVal.noConfusion hcon
      | norm_num

/-- Claim C2 as amended: the returned summary includes the elapsed
wall-clock time and the total original/compressed sizes (from which the
ratio is derivable), while the aggregate compression figure itself is only
computed for the log, as the percentage `(1 - total_compressed/total_original) * 100`
when `total_original > 0` and `0` otherwise. -/
theorem c2_summary_time_totals_and_logged_ratio (outs : List TaskOutcome)
    (skippedCount : Nat) (ptime torig tcomp : ℚ) :
    ("processing_time", PyVal.rat ptime) ∈ run_summary outs skippedCount ptime
    ∧ ("total_original_size", PyVal.rat (aggregate outs).total_original_size)
        ∈ run_summary outs skippedCount ptime
    ∧ ("total_compressed_size", PyVal.rat (aggregate outs).total_compressed_size)
        ∈ run_summary outs skippedCount ptime
    ∧ (0 < torig → overall_compression torig tcomp = (1 - tcomp / torig) * 100)
    ∧ (torig = 0 → overall_compression torig tcomp = 0) := by
  refine ⟨?_, ?_, ?_, fun h => ?_, fun h => ?_⟩
  · simp [run_summary]
  · simp [run_summary]
  · simp [run_summary]
  · rw [overall_compression, if_pos h]
  · rw [overall_compression, if_neg (by rw [h]; exact lt_irrefl 0)]

/-- Witness for C2 as amended, at a concrete batch. -/
theorem c2_summary_time_totals_and_logged_ratio_witness :
    ("processing_time", PyVal.rat 2) ∈ run_summary [] 0 2
    ∧ overall_compression 10 5 = (1 - 5 / 10) * 100
    ∧ overall_compression 0 5 = 0 :=
  ⟨(c2_summary_time_totals_and_logged_ratio [] 0 2 10 5).1,
    (c2_summary_time_totals_and_logged_ratio [] 0 2 10 5).2.2.2.1 (by norm_num),
    (c2_summary_time_totals_and_logged_ratio [] 0 2 0 5).2.2.2.2 rfl⟩

/-- Claim C3, counterexample: with a root that is not an existing
directory, `find_all_pdfs` returns the empty sequence (pathlib's glob
selector yields nothing for a missing root) instead of failing with a
not-found error — the embedding is a total function and this evaluation
shows it returns a sequence. -/
theorem c3_missing_root_yields_empty_not_error :
    find_all_pdfs ⟨[["root"]], [(["root", "a.pdf"], 5)]⟩ ["nope"] true = [] := by decide

/-- Claim C3 as amended: for every root that is not an existing directory,
discovery returns the empty sequence (it neither raises nor returns any
file). -/
theorem c3_missing_root_returns_empty (fs : FS) (dir : FsPath) (recursive : Bool)
    (h : dir ∉ fs.dirs) :
    find_all_pdfs fs dir recursive = [] := by
  simp [find_all_pdfs, h]

/-- Witness for C3 as amended. -/
theorem c3_missing_root_returns_empty_witness :
    find_all_pdfs ⟨[["other"]], [(["other", "x.pdf"], 1)]⟩ ["missing"] false = [] :=
  c3_missing_root_returns_empty ⟨[["other"]], [(["other", "x.pdf"], 1)]⟩ ["missing"] false
    (by decide)

/-- Claim C4: when the backup copy step fails (`copyOk = false`), any
terminating run of `replace_original_file` raises (returns an error, never
`ok`), and the state it leaves behind has exactly the input's files: the
move was never attempted and the original file is unmodified (only the
backup directory may have been created by `mkdir`). -/
theorem c4_backup_failure_aborts_replace (fs : FS)
    (original compressed backupDir : FsPath) (stem ext : String) (fuel : Nat)
    (hcomp : fileExists fs compressed = true) :
    ∀ res, replace_original_file false fs original compressed backupDir stem ext fuel
        = some res →
      res.isOk = false ∧ res.state.files = fs.files := by
  intro res hres
  rcases replace_copyFail fs original compressed backupDir stem ext fuel hcomp with h | h
  · rw [h] at hres; cases hres
  · rw [h] at hres
    cases hres
    exact ⟨rfl, rfl⟩

/-- Witness for C4 at a concrete filesystem. -/
theorem c4_backup_failure_aborts_replace_witness :
    (OpResult.error "Failed to replace original file: Failed to create backup: copy failed"
        (⟨[["d", "original_backups"], ["d"]],
          [(["d", "a.pdf"], 3), (["d", "temp_compressed", "a.pdf"], 1)]⟩ : FS)
      : OpResult FsPath).isOk = false
    ∧ (OpResult.error "Failed to replace original file: Failed to create backup: copy failed"
        (⟨[["d", "original_backups"], ["d"]],
          [(["d", "a.pdf"], 3), (["d", "temp_compressed", "a.pdf"], 1)]⟩ : FS)
      : OpResult FsPath).state.files
        = (⟨[["d"]], [(["d", "a.pdf"], 3), (["d", "temp_compressed", "a.pdf"], 1)]⟩ : FS).files :=
  c4_backup_failure_aborts_replace
    ⟨[["d"]], [(["d", "a.pdf"], 3), (["d", "temp_compressed", "a.pdf"], 1)]⟩
    ["d", "a.pdf"] ["d", "temp_compressed", "a.pdf"] ["d", "original_backups"] "a" ".pdf" 3
    (by decide) _ (by decide)

/-- Claim C5: `compress_pdf` reports success only when the tool exited
with code 0 and the declared output file exists afterwards; and when the
tool exits 0 without producing the output file (and no stale output
exists), the call fails with "Output file was not created" instead of
reporting success. -/
theorem c5_success_iff_exit_zero_and_output_present (fs : FS) (gsExit : Nat)
    (gsOut : Option Nat) (input output : FsPath) :
    ((compress_pdf fs gsExit gsOut input output).isOk = true →
      gsExit = 0 ∧ fileExists (compress_pdf fs gsExit gsOut input output).state output = true)
    ∧ (gsExit = 0 → gsOut = none → fileExists fs output = false →
      compress_pdf fs gsExit gsOut input output = .error "Output file was not created" fs) := by
  constructor
  · intro h
    cases hres : compress_pdf fs gsExit gsOut input output with
    | error e fs1 =>
      rw [hres] at h
      simp [OpResult.isOk] at h
    | ok r fs1 =>
      unfold compress_pdf at hres
      generalize hg : (match gsOut with | some n => writeFile fs output n | none => fs) = fsx
        at hres
      split at hres
      · cases hres
      · dsimp only at hres
        split at hres
        · cases hres
        next hz hn =>
          refine ⟨by omega, ?_⟩
          have hstate : fsx = fs1 := congrArg OpResult.state hres
          simp only [OpResult.state]
          rw [← hstate]
          simp only [fileExists]
          cases hstat : statOf fsx output with
          | none => rw [hstat] at hn; simp at hn
          | some c => simp
  · intro h1 h2 h3
    subst h1; subst h2
    simp only [compress_pdf]
    have hnone : statOf fs output = none := by
      cases hstat : statOf fs output with
      | none => rfl
      | some c => simp only [fileExists, hstat] at h3; simp at h3
    simp [hnone]

/-- Witness for C5: a successful run (exit 0, output written) and a
failing run (exit 0, no output produced). -/
theorem c5_success_iff_exit_zero_and_output_present_witness :
    ((0 : Nat) = 0
      ∧ fileExists (compress_pdf ⟨[["d"]], [(["d", "a.pdf"], 2)]⟩ 0 (some 3)
          ["d", "a.pdf"] ["out.pdf"]).state ["out.pdf"] = true)
    ∧ compress_pdf ⟨[["d"]], [(["d", "a.pdf"], 2)]⟩ 0 none ["d", "a.pdf"] ["out.pdf"]
        = .error "Output file was not created" ⟨[["d"]], [(["d", "a.pdf"], 2)]⟩ :=
  ⟨(c5_success_iff_exit_zero_and_output_present ⟨[["d"]], [(["d", "a.pdf"], 2)]⟩ 0 (some 3)
      ["d", "a.pdf"] ["out.pdf"]).1 (by decide),
    (c5_success_iff_exit_zero_and_output_present ⟨[["d"]], [(["d", "a.pdf"], 2)]⟩ 0 none
      ["d", "a.pdf"] ["out.pdf"]).2 rfl rfl (by decide)⟩

/-- Claim C6: in replace mode with backup, when compression succeeds
(exit 0, output written) but the backup-and-replace step fails
(`copyOk = false`), the job's outcome is `failed`, and aggregating it
counts it among the failures, not the successes. -/
theorem c6_replace_failure_marks_job_failed (fs : FS) (pdf output backupDir : FsPath)
    (stem ext : String) (n fuel : Nat) :
    ∀ out fs2,
      compress_single_pdf_task fs 0 (some n) false pdf output backupDir stem ext true true fuel
        = some (out, fs2) →
      outcome_is_failed out = true
      ∧ (aggregate [out]).failed_compressions = 1
      ∧ (aggregate [out]).successful_compressions = 0 := by
  intro out fs2 htask
  have hex : fileExists (writeFile fs output n) output = true := by
    simp [fileExists, statOf_writeFile_self]
  cases hres : compress_pdf fs 0 (some n) pdf output with
  | error e fs1 =>
    exfalso
    unfold compress_pdf at hres
    rw [if_neg (by omega : ¬ ((0 : Nat) ≠ 0))] at hres
    dsimp only at hres
    rw [statOf_writeFile_self] at hres
    simp at hres
  | ok r fs1 =>
    have hfs1 : fs1 = writeFile fs output n := by
      unfold compress_pdf at hres
      rw [if_neg (by omega : ¬ ((0 : Nat) ≠ 0))] at hres
      dsimp only at hres
      rw [statOf_writeFile_self] at hres
      simp only [Option.isNone_some, Bool.false_eq_true, if_false, reduceIte] at hres
      exact (congrArg OpResult.state hres).symm
    subst hfs1
    rcases replace_copyFail (writeFile fs output n) pdf output backupDir stem ext fuel hex
      with hrep | hrep
    · simp only [compress_single_pdf_task, hres, hrep, if_true] at htask
      cases htask
    · simp only [compress_single_pdf_task, hres, hrep, if_true] at htask
      cases htask
      exact ⟨rfl, rfl, rfl⟩

/-- Witness for C6 at a concrete job. -/
theorem c6_replace_failure_marks_job_failed_witness :
    outcome_is_failed
        (TaskOutcome.failed
          "Failed to replace original file: Failed to create backup: copy failed") = true
    ∧ (aggregate [TaskOutcome.failed
          "Failed to replace original file: Failed to create backup: copy failed"]
        ).failed_compressions = 1
    ∧ (aggregate [TaskOutcome.failed
          "Failed to replace original file: Failed to create backup: copy failed"]
        ).successful_compressions = 0 :=
  c6_replace_failure_marks_job_failed ⟨[["d"]], [(["d", "a.pdf"], 2)]⟩ ["d", "a.pdf"]
    ["d", "temp_compressed", "a.pdf"] ["d", "original_backups"] "a" ".pdf" 1 3
    (TaskOutcome.failed "Failed to replace original file: Failed to create backup: copy failed")
    ⟨[["d", "original_backups"], ["d"]],
      [(["d", "temp_compressed", "a.pdf"], 1), (["d", "a.pdf"], 2)]⟩
    (by decide)

/-- Claim C7: when a backup of the same name already exists, a terminating
successful `create_backup` picks a path of the form `stem_backup_k.ext`
with `k ≥ 1`, having probed (and found occupied) every earlier candidate;
the chosen path did not previously exist and no existing file is
overwritten or modified. -/
theorem c7_backup_collision_probes_fresh_name (fs : FS) (src backupDir : FsPath)
    (stem ext : String) (fuel : Nat) (bp : FsPath) (fs2 : FS)
    (hcol : fileExists fs (backup_candidate backupDir stem ext 0) = true)
    (hrun : create_backup true fs src backupDir stem ext fuel = some (.ok bp fs2)) :
    fileExists fs bp = false
    ∧ (∃ k, 1 ≤ k ∧ bp = backup_candidate backupDir stem ext k
        ∧ ∀ i, i < k → fileExists fs (backup_candidate backupDir stem ext i) = true)
    ∧ ∀ q, fileExists fs q = true → statOf fs2 q = statOf fs q := by
  unfold create_backup at hrun
  dsimp only at hrun
  cases heq : findFreeFrom (mkdirFS fs backupDir) backupDir stem ext fuel 0 with
  | none => rw [heq] at hrun; cases hrun
  | some k =>
    rw [heq] at hrun
    dsimp only at hrun
    cases hsrc : statOf (mkdirFS fs backupDir) src with
    | none => rw [hsrc] at hrun; simp at hrun
    | some c =>
      rw [hsrc] at hrun
      simp only [Option.some.injEq, OpResult.ok.injEq] at hrun
      obtain ⟨hbp, hfs2⟩ := hrun
      have hspec := findFreeFrom_spec (mkdirFS fs backupDir) backupDir stem ext fuel 0 k heq
      rw [fileExists_mkdirFS] at hspec
      have hk1 : 1 ≤ k := by
        rcases Nat.eq_zero_or_pos k with hk0 | hk
        · subst hk0
          rw [hspec.2.1] at hcol
          cases hcol
        · exact hk
      refine ⟨hbp ▸ hspec.2.1, ⟨k, hk1, hbp.symm, fun i hik => ?_⟩, fun q hq => ?_⟩
      · have hi := hspec.2.2 i (Nat.zero_le i) hik
        rwa [fileExists_mkdirFS] at hi
      · subst hfs2
        have hqc : q ≠ backup_candidate backupDir stem ext k := by
          intro hqe
          rw [hqe, hspec.2.1] at hq
          cases hq
        rw [statOf_writeFile_ne _ _ _ _ hqc]
        exact statOf_mkdirFS fs backupDir q

/-- Witness for C7: with `r.pdf` and `r_backup_1.pdf` already in the
backup directory, the backup of `s.pdf`-content lands at
`r_backup_2.pdf`, which did not exist, and the existing files are
untouched. -/
theorem c7_backup_collision_probes_fresh_name_witness :
    fileExists ⟨[], [(["s.pdf"], 7), (["b", "r.pdf"], 1), (["b", "r_backup_1.pdf"], 2)]⟩
        ["b", "r_backup_2.pdf"] = false
    ∧ statOf ⟨[["b"]], [(["b", "r_backup_2.pdf"], 7), (["s.pdf"], 7), (["b", "r.pdf"], 1),
          (["b", "r_backup_1.pdf"], 2)]⟩ ["s.pdf"]
        = statOf ⟨[], [(["s.pdf"], 7), (["b", "r.pdf"], 1), (["b", "r_backup_1.pdf"], 2)]⟩
            ["s.pdf"] := by
  have h := c7_backup_collision_probes_fresh_name
    ⟨[], [(["s.pdf"], 7), (["b", "r.pdf"], 1), (["b", "r_backup_1.pdf"], 2)]⟩
    ["s.pdf"] ["b"] "r" ".pdf" 5 ["b", "r_backup_2.pdf"]
    ⟨[["b"]], [(["b", "r_backup_2.pdf"], 7), (["s.pdf"], 7), (["b", "r.pdf"], 1),
      (["b", "r_backup_1.pdf"], 2)]⟩
    (by decide) (by decide)
  exact ⟨h.1, h.2.2 ["s.pdf"] (by decide)⟩

/-- Claim C8: on any state in which the root is an existing directory,
every file found by non-recursive discovery is also found by recursive
discovery. -/
theorem c8_recursive_discovery_superset (fs : FS) (dir : FsPath) (hdir : dir ∈ fs.dirs) :
    ∀ f, f ∈ find_all_pdfs fs dir false → f ∈ find_all_pdfs fs dir true := by
  intro f hf
  simp only [find_all_pdfs, if_pos hdir] at hf ⊢
  simp only [Bool.false_eq_true, if_false, reduceIte] at hf
  rcases List.mem_filter.mp hf with ⟨hmem, hcond⟩
  refine List.mem_filter.mpr ⟨hmem, ?_⟩
  simp only [Bool.and_eq_true, decide_eq_true_eq] at hcond ⊢
  exact ⟨⟨hcond.1.1, by omega⟩, hcond.2⟩

/-- Witness for C8 at a one-file directory. -/
theorem c8_recursive_discovery_superset_witness :
    ["d", "a.pdf"] ∈ find_all_pdfs ⟨[["d"]], [(["d", "a.pdf"], 9)]⟩ ["d"] true :=
  c8_recursive_discovery_superset ⟨[["d"]], [(["d", "a.pdf"], 9)]⟩ ["d"] (by decide)
    ["d", "a.pdf"] (by decide)

/-- Claim C9: `get_file_size` is total (the embedding returns a plain
rational, never raising): it returns the byte size divided by 2^20 when
the stat succeeds and `0` when the stat fails, so an unreadable file is
indistinguishable from an empty (0-byte) file to every caller. -/
theorem c9_get_file_size_total_zero_on_failure (stat : FsPath → Option Nat)
    (p q : FsPath) (n : Nat) :
    (stat p = some n → get_file_size stat p = (n : ℚ) / (1024 * 1024))
    ∧ (stat p = none → get_file_size stat p = 0)
    ∧ (stat p = none → stat q = some 0 → get_file_size stat p = get_file_size stat q) :=
  ⟨fun h => by simp [get_file_size, h], fun h => by simp [get_file_size, h],
    fun h1 h2 => by simp [get_file_size, h1, h2]⟩

/-- Witness for C9: a stat that fails on one path and reports an empty
file on another. -/
theorem c9_get_file_size_total_zero_on_failure_witness :
    get_file_size (fun p => if p = ["empty.pdf"] then some 0 else none) ["locked.pdf"] = 0
    ∧ get_file_size (fun p => if p = ["empty.pdf"] then some 0 else none) ["locked.pdf"]
        = get_file_size (fun p => if p = ["empty.pdf"] then some 0 else none) ["empty.pdf"] :=
  ⟨(c9_get_file_size_total_zero_on_failure (fun p => if p = ["empty.pdf"] then some 0 else none)
      ["locked.pdf"] ["empty.pdf"] 0).2.1 (by decide),
    (c9_get_file_size_total_zero_on_failure (fun p => if p = ["empty.pdf"] then some 0 else none)
      ["locked.pdf"] ["empty.pdf"] 0).2.2 (by decide) (by decide)⟩

/-- Claim C10: recursive discovery applies no exclusion beyond the `.pdf`
name filter: every `.pdf` file strictly below the root — in particular one
inside `original_backups` or `temp_compressed` left by a previous
replace-mode session — is returned, and when its size meets the threshold
it also enters `files_to_process`, so a second run re-compresses earlier
backups. -/
theorem c10_discovery_no_exclusions (fs : FS) (dir f : FsPath)
    (stat : FsPath → Option Nat) (m : ℚ)
    (hdir : dir ∈ fs.dirs) (hf : f ∈ fs.files.map (fun e => e.1))
    (hpre : dir.isPrefixOf f = true) (hlen : dir.length < f.length)
    (hpdf : isPdfName f = true) (hsize : m ≤ get_file_size stat f) :
    f ∈ find_all_pdfs fs dir true
    ∧ f ∈ (size_filter stat m (find_all_pdfs fs dir true)).1 := by
  have hmem : f ∈ find_all_pdfs fs dir true := by
    simp only [find_all_pdfs, if_pos hdir, reduceIte]
    refine List.mem_filter.mpr ⟨hf, ?_⟩
    simp [hpre, hlen, hpdf]
  exact ⟨hmem, (mem_size_filter stat m _ f).mpr ⟨hmem, hsize⟩⟩

/-- Witness for C10: a 2 MB backup file inside `original_backups` is
re-discovered and re-queued for compression at a 1 MB threshold. -/
theorem c10_discovery_no_exclusions_witness :
    (["d", "original_backups", "r_backup_1.pdf"]
        ∈ find_all_pdfs
            ⟨[["d"]], [(["d", "original_backups", "r_backup_1.pdf"], 2097152)]⟩ ["d"] true)
    ∧ ["d", "original_backups", "r_backup_1.pdf"]
        ∈ (size_filter (fun _ => some 2097152) 1
            (find_all_pdfs
              ⟨[["d"]], [(["d", "original_backups", "r_backup_1.pdf"], 2097152)]⟩
              ["d"] true)).1 :=
  c10_discovery_no_exclusions _ _ _ _ _ (by decide) (by decide) (by decide) (by decide)
    (by decide) (by norm_num [get_file_size])

end CompressPdf
